import Mathlib

/-!
Verification of the client-side authentication transport layer of the
family-karaoke-web frontend, a shallow embedding of `src/lib/axios.ts`.

The embedded artifacts:
  * the in-memory access-token cell (`let accessToken: string | null`,
    `setAccessToken`, lines 6-10);
  * the request interceptor that attaches `Authorization: Bearer <token>`
    (lines 20-25, `requestOnFulfilled`);
  * the refresh coordinator of the response interceptor
    (lines 27-78): `isRefreshing`, `failedQueue`, `processQueue`, the
    401 branch (join / trigger), the refresh POST, the success and
    failure continuations, and the `auth:logout` broadcast.

Because the handler is asynchronous, the module is embedded as an
event-loop machine: `SysState` is the mutable module state together with
the observable actions emitted so far, and `step` consumes one external
stimulus (an HTTP error delivered to the response interceptor, or the
HTTP settlement of the outstanding refresh POST), running the handler
code up to its next suspension point exactly as the single-threaded
cooperative JS scheduler would.  The refresh POST is issued through the
same `apiClient`, so it passes through the request interceptor on the
way out and through the response interceptor on an error result; the
machine routes it accordingly.
-/

/-- The headers of a request.  The source manipulates only the
`Authorization` header; every other header is carried opaquely. -/
structure Headers where
  authorization : Option String
  other : List (String × String)
deriving Repr, DecidableEq

/-- `InternalAxiosRequestConfig & \x7b _retry?: boolean \x7d`.  The TS
field `_retry` is optional; an absent field behaves as `false` under the
`!` and `&&` operators of line 45, so it is modelled as a `Bool` whose
value for a fresh request is `false`. -/
structure RequestConfig where
  url : String
  headers : Headers
  retry : Bool
deriving Repr, DecidableEq

/-- An `AxiosError`, restricted to the parts the interceptor reads:
`error.response?.status` (`none` when no HTTP response exists, i.e. a
transport error) and `error.config` (the original request).  `reqId`
identifies the pending caller whose promise this error would settle. -/
structure AxiosErr where
  reqId : Nat
  status : Option Nat
  config : RequestConfig
deriving Repr, DecidableEq

/-- One entry of `failedQueue` (lines 28-31): the source stores a
`resolve`/`reject` pair whose `then`-continuation (lines 49-52) captures
`originalRequest`; a waiter is therefore modelled as the identity of the
queued caller plus that captured config. -/
structure Waiter where
  id : Nat
  cfg : RequestConfig
deriving Repr, DecidableEq

/-- A settlement of the promise of a pending caller: its `resolve`
callback invoked with a token, or its `reject` callback invoked with an
error. -/
inductive Delivery where
  | resolved (id : Nat) (token : String)
  | rejected (id : Nat) (err : AxiosErr)
deriving Repr, DecidableEq

/-- The one outstanding `await apiClient.post("/accounts/token/refresh/")`
of line 59: the triggering request (already marked `_retry = true`)
suspended inside the `try`, and the config of the refresh POST as it went
out on the wire.  `stuck` records that the 401 of the refresh call itself
was swallowed into `failedQueue` by the response interceptor, after which
the `await` can never resume. -/
structure PendingRefresh where
  triggerId : Nat
  triggerCfg : RequestConfig
  refreshCfg : RequestConfig
  stuck : Bool
deriving Repr, DecidableEq

/-- The mutable state of the module plus the observable actions emitted
so far: refresh POSTs issued (post request-interceptor, in order),
promise settlements, re-dispatched requests (post request-interceptor,
tagged with the id of the caller they belong to), and the number of
`auth:logout` events dispatched on `window`. -/
structure SysState where
  accessToken : Option String
  isRefreshing : Bool
  failedQueue : List Waiter
  pending : Option PendingRefresh
  refreshRequests : List RequestConfig
  deliveries : List Delivery
  replays : List (Nat × RequestConfig)
  logoutEvents : Nat
deriving Repr, DecidableEq

/-- Lines 8-10: `setAccessToken` replaces the cell contents. -/
def setAccessToken (token : Option String) (s : SysState) : SysState :=
  { s with accessToken := token }

/-- Lines 20-25, the request interceptor: `if (accessToken)` attaches
`Bearer <token>`, otherwise the config is returned untouched.  TS
truthiness of a `string | null` value: `null` and `""` are both falsy,
so an empty-string cell attaches nothing. -/
def requestOnFulfilled (accessToken : Option String) (config : RequestConfig) :
    RequestConfig :=
  match accessToken with
  | some tok =>
      if tok = "" then config
      else { config with
              headers := { config.headers with
                            authorization := some ("Bearer " ++ tok) } }
  | none => config

/-- Lines 33-36: `processQueue(error, token)` settles every queued waiter
in queue order: `p.reject(error)` when `error` is non-null, otherwise
`p.resolve(token!)`.  The `token!` is the TS non-null assertion; the only
resolving call site (line 63) passes a non-null token, so the `getD`
default is never exercised there. -/
def processQueue (error : Option AxiosErr) (token : Option String)
    (queue : List Waiter) : List Delivery :=
  queue.map (fun p =>
    match error with
    | some e => .rejected p.id e
    | none => .resolved p.id (token.getD ""))

/-- What the synchronous part of the response-error interceptor
(lines 45-57 and 76) decided to do with an error. -/
inductive HandlerStep where
  | joined
  | triggered (marked : RequestConfig)
  | passthrough (e : AxiosErr)
deriving Repr, DecidableEq

/-- Lines 40-57 and 76, the synchronous prefix of the error handler,
up to its first suspension point:
  * status 401 and not yet retried, while refreshing: push a waiter
    onto `failedQueue` (lines 46-52) — the caller now awaits the queue;
  * status 401 and not yet retried, while idle: set
    `originalRequest._retry = true` and `isRefreshing = true`
    (lines 55-56); the refresh POST is about to be issued;
  * anything else: `return Promise.reject(error)` (line 76), the error
    passes through unmodified. -/
def respOnRejected (s : SysState) (e : AxiosErr) : SysState × HandlerStep :=
  if e.status = some 401 ∧ e.config.retry = false then
    if s.isRefreshing then
      ({ s with failedQueue := s.failedQueue ++ [⟨e.reqId, e.config⟩] }, .joined)
    else
      ({ s with isRefreshing := true }, .triggered { e.config with retry := true })
  else
    (s, .passthrough e)

/-- The refresh POST of line 59 as constructed by
`apiClient.post("/accounts/token/refresh/")` before the request
interceptor runs: the instance default headers of lines 12-18 and no
`_retry` field. -/
def refreshBaseConfig : RequestConfig :=
  { url := "/accounts/token/refresh/"
  , headers := { authorization := none
               , other := [("Content-Type", "application/json")] }
  , retry := false }

/-- Lines 50 and 64: overwrite the Authorization header of a request
with the freshly delivered token before re-dispatching it. -/
def withBearer (token : String) (cfg : RequestConfig) : RequestConfig :=
  { cfg with headers := { cfg.headers with
                           authorization := some ("Bearer " ++ token) } }

/-- `apiClient(originalRequest)` / `apiClient.post(...)`: every dispatch
passes through the request interceptor with the current cell contents. -/
def dispatch (s : SysState) (cfg : RequestConfig) : RequestConfig :=
  requestOnFulfilled s.accessToken cfg

/-- Identity tag for the refresh POST itself when its own failure is
routed through the response interceptor. -/
def refreshCallId : Nat := 0

/-- External stimuli of the cooperative event loop: an ordinary
request settles with an error and the response interceptor runs on it,
or the outstanding refresh POST receives its HTTP result (a success
response passes the identity success interceptor of line 39; an error
result is routed through the same error interceptor first). -/
inductive Event where
  | respError (e : AxiosErr)
  | refreshOk (token : String)
  | refreshFail (status : Option Nat)
deriving Repr, DecidableEq

/-- One macro-step of the event loop: run the handler code reachable
from the stimulus through its suspension points and microtasks.
  * `respError`: the synchronous handler prefix; on trigger, the refresh
    POST goes out through the request interceptor and the trigger
    suspends awaiting it.
  * `refreshOk`: lines 62-65 then the `finally` of line 72, then the
    queued `then`-continuations (lines 49-52) as microtasks, each
    re-dispatching its captured request through the request interceptor.
  * `refreshFail`: the failed POST first passes the error interceptor
    itself.  If that swallows it into `failedQueue` (status 401 while
    `isRefreshing` is true), the `await` never resumes and the operation
    is stuck.  Otherwise the rejection reaches the `catch` of lines
    66-73: reject all waiters, clear the cell, dispatch `auth:logout`,
    reject the trigger, and reset `isRefreshing` in the `finally`.
A settled refresh POST receives no second result, hence the `stuck`
guard; a refresh settlement with no refresh outstanding has no effect.
A `triggered` outcome for the refresh POST itself is unreachable here
(it requires `isRefreshing = false` while a refresh is pending); the
machine then simply records the handler state. -/
def step (s : SysState) (ev : Event) : SysState :=
  match ev with
  | .respError e =>
      match respOnRejected s e with
      | (s1, .joined) => s1
      | (s1, .passthrough e1) =>
          { s1 with deliveries := s1.deliveries ++ [Delivery.rejected e1.reqId e1] }
      | (s1, .triggered marked) =>
          let rcfg := dispatch s1 refreshBaseConfig
          { s1 with
              refreshRequests := s1.refreshRequests ++ [rcfg]
            , pending := some ⟨e.reqId, marked, rcfg, false⟩ }
  | .refreshOk tok =>
      match s.pending with
      | none => s
      | some p =>
          if p.stuck then s
          else
            let s1 := setAccessToken (some tok) s
            let ds := processQueue none (some tok) s1.failedQueue
            let ws := s1.failedQueue
            let s2 := { s1 with failedQueue := []
                              , deliveries := s1.deliveries ++ ds }
            let s3 := { s2 with replays :=
                s2.replays ++ [(p.triggerId, dispatch s2 (withBearer tok p.triggerCfg))] }
            let s4 := { s3 with isRefreshing := false, pending := none }
            { s4 with replays :=
                s4.replays ++ ws.map (fun w => (w.id, dispatch s4 (withBearer tok w.cfg))) }
  | .refreshFail st =>
      match s.pending with
      | none => s
      | some p =>
          if p.stuck then s
          else
            let e : AxiosErr := ⟨refreshCallId, st, p.refreshCfg⟩
            match respOnRejected s e with
            | (s1, .joined) =>
                { s1 with pending := some { p with stuck := true } }
            | (s1, .passthrough e1) =>
                let ds := processQueue (some e1) none s1.failedQueue
                let s2 := { s1 with failedQueue := []
                                  , deliveries := s1.deliveries ++ ds }
                let s3 := setAccessToken none s2
                let s4 := { s3 with logoutEvents := s3.logoutEvents + 1 }
                let s5 := { s4 with deliveries :=
                    s4.deliveries ++ [Delivery.rejected p.triggerId e1] }
                { s5 with isRefreshing := false, pending := none }
            | (s1, .triggered _) => s1

/-- Run the event loop over a list of stimuli. -/
def run (s : SysState) (evs : List Event) : SysState :=
  evs.foldl step s

/-- The module state right after load (lines 6, 27-31): `isRefreshing`
false and an empty queue; the cell is a parameter so that scenarios can
also start mid-session with a previously obtained token. -/
def initState (a0 : Option String) : SysState :=
  { accessToken := a0, isRefreshing := false, failedQueue := []
  , pending := none, refreshRequests := [], deliveries := []
  , replays := [], logoutEvents := 0 }

/-- A sample request config carrying a stale bearer header. -/
def cfgA : RequestConfig :=
  { url := "/reservations"
  , headers := { authorization := some ("Bearer t0"), other := [] }
  , retry := false }

/-- A second sample request config. -/
def cfgB : RequestConfig :=
  { url := "/menu"
  , headers := { authorization := some ("Bearer t0"), other := [] }
  , retry := false }

/-- A third sample request config, for pass-through scenarios. -/
def cfgC : RequestConfig :=
  { url := "/rooms"
  , headers := { authorization := some ("Bearer t0"), other := [] }
  , retry := false }

lemma run_cons (s : SysState) (ev : Event) (evs : List Event) :
    run s (ev :: evs) = run (step s ev) evs := rfl

lemma run_append (s : SysState) (l1 l2 : List Event) :
    run s (l1 ++ l2) = run (run s l1) l2 := by
  simp [run, List.foldl_append]

lemma step_join (s : SysState) (e : AxiosErr) (hs : s.isRefreshing = true)
    (h1 : e.status = some 401) (h2 : e.config.retry = false) :
    step s (.respError e)
      = { s with failedQueue := s.failedQueue ++ [⟨e.reqId, e.config⟩] } := by
  simp [step, respOnRejected, h1, h2, hs]

lemma step_trigger (s : SysState) (e : AxiosErr) (hs : s.isRefreshing = false)
    (h1 : e.status = some 401) (h2 : e.config.retry = false) :
    step s (.respError e)
      = { s with
            isRefreshing := true
          , refreshRequests := s.refreshRequests
              ++ [requestOnFulfilled s.accessToken refreshBaseConfig]
          , pending := some ⟨e.reqId, { e.config with retry := true }
                            , requestOnFulfilled s.accessToken refreshBaseConfig
                            , false⟩ } := by
  simp [step, respOnRejected, h1, h2, hs, dispatch]

lemma step_pass (s : SysState) (e : AxiosErr)
    (h : ¬(e.status = some 401 ∧ e.config.retry = false)) :
    step s (.respError e)
      = { s with deliveries := s.deliveries ++ [Delivery.rejected e.reqId e] } := by
  simp [step, respOnRejected, h]

lemma run_join_all : ∀ (es : List AxiosErr) (s : SysState), s.isRefreshing = true →
    (∀ e ∈ es, e.status = some 401 ∧ e.config.retry = false) →
    run s (es.map Event.respError)
      = { s with failedQueue :=
            s.failedQueue ++ es.map (fun e => ⟨e.reqId, e.config⟩) } := by
  intro es
  induction es with
  | nil => intro s hs hall; simp [run]
  | cons e rest ih =>
      intro s hs hall
      obtain ⟨h1, h2⟩ := hall e (List.mem_cons_self e rest)
      have hrest := fun x hx => hall x (List.mem_cons_of_mem e hx)
      rw [List.map_cons, run_cons, step_join s e hs h1 h2,
          ih _ (by simp [hs]) hrest]
      simp

lemma step_refreshOk (s : SysState) (p : PendingRefresh) (tok : String)
    (hp : s.pending = some p) (hstuck : p.stuck = false) :
    step s (.refreshOk tok)
      = { s with
            accessToken := some tok
          , failedQueue := []
          , deliveries := s.deliveries ++ processQueue none (some tok) s.failedQueue
          , replays := s.replays
              ++ (p.triggerId, requestOnFulfilled (some tok) (withBearer tok p.triggerCfg))
                :: s.failedQueue.map
                    (fun w => (w.id, requestOnFulfilled (some tok) (withBearer tok w.cfg)))
          , isRefreshing := false
          , pending := none } := by
  simp [step, hp, hstuck, setAccessToken, dispatch]

lemma step_refreshFail (s : SysState) (p : PendingRefresh) (st : Option Nat)
    (hp : s.pending = some p) (hstuck : p.stuck = false) (hst : ¬ st = some 401) :
    step s (.refreshFail st)
      = { s with
            accessToken := none
          , failedQueue := []
          , deliveries := s.deliveries
              ++ processQueue (some ⟨refreshCallId, st, p.refreshCfg⟩) none s.failedQueue
              ++ [Delivery.rejected p.triggerId ⟨refreshCallId, st, p.refreshCfg⟩]
          , logoutEvents := s.logoutEvents + 1
          , isRefreshing := false
          , pending := none } := by
  simp [step, hp, hstuck, respOnRejected, hst, setAccessToken]

lemma bearer_dispatch (tok : String) (c : RequestConfig) :
    (requestOnFulfilled (some tok) (withBearer tok c)).headers.authorization
      = some ("Bearer " ++ tok) := by
  by_cases h : tok = "" <;> simp [requestOnFulfilled, withBearer, h]

/-- A full failed-refresh scenario: one triggering 401, then the 401s of
the concurrent waiters, then the HTTP failure of the refresh POST. -/
def failTrace (tr : AxiosErr) (ws : List AxiosErr) (st : Option Nat) : List Event :=
  Event.respError tr :: ws.map Event.respError ++ [Event.refreshFail st]

/-- A full successful-refresh scenario: one triggering 401, then the
401s of the concurrent waiters, then the refresh POST delivering a new
token. -/
def okTrace (tr : AxiosErr) (ws : List AxiosErr) (tok : String) : List Event :=
  Event.respError tr :: ws.map Event.respError ++ [Event.refreshOk tok]

lemma run_prefix401 (a0 : Option String) (tr : AxiosErr) (ws : List AxiosErr)
    (htr1 : tr.status = some 401) (htr2 : tr.config.retry = false)
    (hws : ∀ e ∈ ws, e.status = some 401 ∧ e.config.retry = false) :
    run (initState a0) (Event.respError tr :: ws.map Event.respError)
      = { accessToken := a0
        , isRefreshing := true
        , failedQueue := ws.map (fun e => ⟨e.reqId, e.config⟩)
        , pending := some ⟨tr.reqId, { tr.config with retry := true }
                          , requestOnFulfilled a0 refreshBaseConfig, false⟩
        , refreshRequests := [requestOnFulfilled a0 refreshBaseConfig]
        , deliveries := [], replays := [], logoutEvents := 0 } := by
  rw [run_cons, step_trigger _ _ rfl htr1 htr2,
      run_join_all _ _ (by simp [initState]) hws]
  simp [initState]

lemma run_failTrace (a0 : Option String) (tr : AxiosErr) (ws : List AxiosErr)
    (st : Option Nat)
    (htr1 : tr.status = some 401) (htr2 : tr.config.retry = false)
    (hws : ∀ e ∈ ws, e.status = some 401 ∧ e.config.retry = false)
    (hst : ¬ st = some 401) :
    run (initState a0) (failTrace tr ws st)
      = { accessToken := none
        , isRefreshing := false
        , failedQueue := []
        , pending := none
        , refreshRequests := [requestOnFulfilled a0 refreshBaseConfig]
        , deliveries :=
            ws.map (fun e => Delivery.rejected e.reqId
              ⟨refreshCallId, st, requestOnFulfilled a0 refreshBaseConfig⟩)
            ++ [Delivery.rejected tr.reqId
              ⟨refreshCallId, st, requestOnFulfilled a0 refreshBaseConfig⟩]
        , replays := [], logoutEvents := 0 + 1 } := by
  have hp := run_prefix401 a0 tr ws htr1 htr2 hws
  rw [show failTrace tr ws st
        = (Event.respError tr :: ws.map Event.respError) ++ [Event.refreshFail st]
      from rfl,
     run_append, hp, run_cons, step_refreshFail _ _ st rfl rfl hst]
  simp [run, processQueue, List.map_map, Function.comp]

lemma run_okTrace (a0 : Option String) (tr : AxiosErr) (ws : List AxiosErr)
    (tok : String)
    (htr1 : tr.status = some 401) (htr2 : tr.config.retry = false)
    (hws : ∀ e ∈ ws, e.status = some 401 ∧ e.config.retry = false) :
    run (initState a0) (okTrace tr ws tok)
      = { accessToken := some tok
        , isRefreshing := false
        , failedQueue := []
        , pending := none
        , refreshRequests := [requestOnFulfilled a0 refreshBaseConfig]
        , deliveries := ws.map (fun e => Delivery.resolved e.reqId tok)
        , replays :=
            (tr.reqId, requestOnFulfilled (some tok)
              (withBearer tok { tr.config with retry := true }))
            :: ws.map (fun e => (e.reqId, requestOnFulfilled (some tok)
                (withBearer tok e.config)))
        , logoutEvents := 0 } := by
  have hp := run_prefix401 a0 tr ws htr1 htr2 hws
  rw [show okTrace tr ws tok
        = (Event.respError tr :: ws.map Event.respError) ++ [Event.refreshOk tok]
      from rfl,
     run_append, hp, run_cons, step_refreshOk _ _ tok rfl rfl]
  simp [run, processQueue, List.map_map, Function.comp]

/-- Claim C1: single-flight.  For any N greater or equal 2 requests whose
calls all settle with a 401 (and which were not yet retried) before the
refresh settles, exactly one refresh POST is issued; every request after
the first observes the refreshing state and joins the waiter queue, in
arrival order, instead of starting a second refresh. -/
theorem C1_single_flight (a0 : Option String) (es : List AxiosErr)
    (hlen : 2 ≤ es.length)
    (hall : ∀ e ∈ es, e.status = some 401 ∧ e.config.retry = false) :
    (run (initState a0) (es.map Event.respError)).refreshRequests.length = 1 ∧
    (run (initState a0) (es.map Event.respError)).failedQueue
      = es.tail.map (fun e => ⟨e.reqId, e.config⟩) := by
  match es with
  | [] => simp at hlen
  | e :: rest =>
      obtain ⟨h1, h2⟩ := hall e (List.mem_cons_self e rest)
      have hrest := fun x hx => hall x (List.mem_cons_of_mem e hx)
      rw [List.map_cons, run_cons, step_trigger _ _ rfl h1 h2,
          run_join_all _ _ (by simp [initState]) hrest]
      simp [initState]

/-- A concrete first 401 arrival (request 1, not yet retried). -/
def e1A : AxiosErr := ⟨1, some 401, cfgA⟩

/-- A concrete second 401 arrival (request 2, not yet retried). -/
def e2B : AxiosErr := ⟨2, some 401, cfgB⟩

/-- Witness for C1_single_flight at two concrete concurrent 401s. -/
theorem C1_single_flight_witness :
    2 ≤ ([e1A, e2B] : List AxiosErr).length ∧
    (∀ e ∈ ([e1A, e2B] : List AxiosErr),
      e.status = some 401 ∧ e.config.retry = false) ∧
    ((run (initState (some "t0"))
        (([e1A, e2B] : List AxiosErr).map Event.respError)).refreshRequests.length = 1 ∧
     (run (initState (some "t0"))
        (([e1A, e2B] : List AxiosErr).map Event.respError)).failedQueue
        = ([e1A, e2B] : List AxiosErr).tail.map (fun e => ⟨e.reqId, e.config⟩)) :=
  ⟨by decide, by decide,
   C1_single_flight (some "t0") [e1A, e2B] (by decide) (by decide)⟩

/-- Claim C8: pass-through.  Any response failure that is not a
first-time 401 — any other status, or a 401 on an already-retried
request — is rejected back to its caller unmodified, and the whole
coordinator state (cell, refreshing flag, queue, pending refresh,
emitted actions) is untouched. -/
theorem C8_passthrough_unmodified (s : SysState) (e : AxiosErr)
    (h : e.status ≠ some 401 ∨ e.config.retry = true) :
    step s (.respError e)
      = { s with deliveries := s.deliveries ++ [Delivery.rejected e.reqId e] } := by
  apply step_pass
  rintro ⟨hc1, hc2⟩
  rcases h with h | h
  · exact h hc1
  · rw [h] at hc2; exact Bool.noConfusion hc2

/-- Witness for C8_passthrough_unmodified: a 500 on a fresh request is
passed through with no state change. -/
theorem C8_passthrough_unmodified_witness :
    ((⟨3, some 500, cfgC⟩ : AxiosErr).status ≠ some 401 ∨
      (⟨3, some 500, cfgC⟩ : AxiosErr).config.retry = true) ∧
    step (initState (some "t0")) (.respError ⟨3, some 500, cfgC⟩)
      = { initState (some "t0") with
            deliveries := (initState (some "t0")).deliveries
              ++ [Delivery.rejected 3 ⟨3, some 500, cfgC⟩] } :=
  ⟨Or.inl (by decide),
   C8_passthrough_unmodified (initState (some "t0")) ⟨3, some 500, cfgC⟩
     (Or.inl (by decide))⟩

/-- Claim C9: a failure carrying no HTTP response at all
(`error.response` absent, so `error.response?.status` is undefined) is
never classified as an authentication failure: whatever the coordinator
state and the retry flag, it is rejected back to the caller unmodified
and neither triggers nor joins a refresh. -/
theorem C9_no_response_passthrough (s : SysState) (idx : Nat)
    (cfg : RequestConfig) :
    step s (.respError ⟨idx, none, cfg⟩)
      = { s with deliveries :=
            s.deliveries ++ [Delivery.rejected idx ⟨idx, none, cfg⟩] } := by
  apply step_pass
  rintro ⟨hc1, -⟩
  exact Option.noConfusion hc1

/-- A request config carrying a pre-existing Authorization header. -/
def cfgOld : RequestConfig :=
  { url := "/x"
  , headers := { authorization := some ("Bearer old"), other := [] }
  , retry := false }

/-- Counterexample to claim C10 as stated: the cell `some ""` is
non-empty as an optional, yet `if (accessToken)` is falsy on the empty
string, so the interceptor leaves the pre-existing Authorization header
in place instead of overwriting it with the cell token. -/
theorem C10_empty_token_cx :
    (some "" : Option String) ≠ none ∧
    requestOnFulfilled (some "") cfgOld = cfgOld ∧
    cfgOld.headers.authorization ≠ some ("Bearer " ++ "") := by
  refine ⟨by decide, rfl, by decide⟩

/-- Claim C10 as amended: the request interceptor overwrites the
Authorization header with the cell token whenever the cell holds a
non-empty token; when the cell is empty, or holds the empty string
(falsy in TS), the config is returned completely unchanged — in
particular a pre-existing Authorization header is preserved. -/
theorem C10_request_interceptor_frame :
    (∀ (t : String) (c : RequestConfig), t ≠ "" →
      requestOnFulfilled (some t) c
        = { c with headers := { c.headers with
              authorization := some ("Bearer " ++ t) } }) ∧
    (∀ c : RequestConfig, requestOnFulfilled none c = c) ∧
    (∀ c : RequestConfig, requestOnFulfilled (some "") c = c) := by
  refine ⟨?_, ?_, ?_⟩
  · intro t c ht; simp [requestOnFulfilled, ht]
  · intro c; rfl
  · intro c; rfl

/-- Witness for C10_request_interceptor_frame at a concrete token and a
config with a pre-existing Authorization header. -/
theorem C10_request_interceptor_frame_witness :
    ("tok" ≠ "" ∧
      requestOnFulfilled (some "tok") cfgOld
        = { cfgOld with headers := { cfgOld.headers with
              authorization := some ("Bearer " ++ "tok") } }) ∧
    requestOnFulfilled none cfgOld = cfgOld ∧
    requestOnFulfilled (some "") cfgOld = cfgOld :=
  ⟨⟨by decide, C10_request_interceptor_frame.1 "tok" cfgOld (by decide)⟩,
   C10_request_interceptor_frame.2.1 cfgOld,
   C10_request_interceptor_frame.2.2 cfgOld⟩

/-- The replay of the triggering request after a refresh delivering
token t1: its config was marked `_retry = true` at trigger time. -/
def cfgA1 : RequestConfig :=
  requestOnFulfilled (some "t1") (withBearer "t1" { cfgA with retry := true })

/-- The replay of the joining request after a refresh delivering token
t1: its config was captured by the queued continuation with `_retry`
still unset. -/
def cfgB1 : RequestConfig :=
  requestOnFulfilled (some "t1") (withBearer "t1" cfgB)

/-- Claim C2 fails on the code (the join path of lines 46-52 never sets
`_retry` on the waiter).  Trace: request 1 triggers a refresh, request 2
joins, the refresh succeeds with token t1 and both are replayed; the
replay of request 2 goes out with `_retry` still false, so when it fails
with 401 again it triggers a second refresh — and after that refresh it
is re-dispatched yet again (two extra dispatches, two refresh calls),
instead of terminating after its single allowed retry. -/
theorem C2_joiner_not_marked_retried :
    (run (initState (some "t0"))
        [Event.respError e1A, Event.respError e2B, Event.refreshOk "t1"]).replays
      = [(1, cfgA1), (2, cfgB1)] ∧
    cfgB1.retry = false ∧
    (run (initState (some "t0"))
        [Event.respError e1A, Event.respError e2B, Event.refreshOk "t1",
         Event.respError ⟨2, some 401, cfgB1⟩,
         Event.refreshOk "t2"]).refreshRequests.length = 2 ∧
    ((run (initState (some "t0"))
        [Event.respError e1A, Event.respError e2B, Event.refreshOk "t1",
         Event.respError ⟨2, some 401, cfgB1⟩,
         Event.refreshOk "t2"]).replays.filter (fun r => r.1 == 2)).length = 2 := by
  refine ⟨rfl, rfl, rfl, rfl⟩

/-- The state after the deadlock scenario of claim C3: request 1 fails
with 401 and triggers a refresh, and the refresh POST itself then fails
with status 401. -/
def c3State : SysState :=
  run (initState (some "t0"))
    [Event.respError ⟨1, some 401, cfgA⟩, Event.refreshFail (some 401)]

/-- Claim C3 fails on the code: when the refresh POST itself fails with
status 401, that error re-enters the same response interceptor, which
sees `isRefreshing = true` and an unset `_retry` and pushes the refresh
call itself onto `failedQueue`.  The awaited refresh promise therefore
never settles: the `catch` of lines 66-73 never runs, the cell is not
cleared, no `auth:logout` event fires, the continuation of request 1 is
never rejected, and `isRefreshing` stays true forever. -/
theorem C3_refresh401_deadlock :
    c3State.logoutEvents = 0 ∧
    c3State.accessToken = some "t0" ∧
    c3State.deliveries = [] ∧
    c3State.replays = [] ∧
    c3State.isRefreshing = true ∧
    c3State.pending.map PendingRefresh.stuck = some true ∧
    c3State.failedQueue.map Waiter.id = [refreshCallId] := by
  refine ⟨rfl, rfl, rfl, rfl, rfl, rfl, rfl⟩

/-- The state right after a trigger from a session holding a stale
token: the refresh POST has just been issued. -/
def c4State : SysState :=
  run (initState (some "stale")) [Event.respError ⟨1, some 401, cfgA⟩]

/-- Counterexample to claim C4 as stated: the refresh POST is issued
through the same `apiClient`, so the request interceptor attaches the
current (stale) cell token to it — it does carry a bearer access-token
credential. -/
theorem C4_refresh_has_bearer_cx :
    c4State.refreshRequests.map (fun c => c.headers.authorization)
      = [some ("Bearer stale")] ∧
    some ("Bearer stale") ≠ (none : Option String) := by
  refine ⟨rfl, by decide⟩

/-- Claim C4 as amended: exactly one refresh POST is issued on the
idle-to-refreshing transition, and since it passes the request
interceptor it carries the current cell token as Bearer credential
whenever the cell holds a non-empty token at trigger time; it goes out
without a bearer credential only when the cell is empty (the
cookie-based authentication of the client is ambient either way). -/
theorem C4_refresh_carries_cell_token (s : SysState) (e : AxiosErr)
    (hs : s.isRefreshing = false)
    (h1 : e.status = some 401) (h2 : e.config.retry = false) :
    (step s (.respError e)).refreshRequests
      = s.refreshRequests ++ [requestOnFulfilled s.accessToken refreshBaseConfig] ∧
    (s.accessToken = none →
      (requestOnFulfilled s.accessToken refreshBaseConfig).headers.authorization
        = none) ∧
    (∀ t : String, s.accessToken = some t → t ≠ "" →
      (requestOnFulfilled s.accessToken refreshBaseConfig).headers.authorization
        = some ("Bearer " ++ t)) := by
  refine ⟨?_, ?_, ?_⟩
  · rw [step_trigger s e hs h1 h2]
  · intro h; simp [h, requestOnFulfilled, refreshBaseConfig]
  · intro t ht hne; simp [ht, requestOnFulfilled, refreshBaseConfig, hne]

/-- Witness for C4_refresh_carries_cell_token: with a stale token in the
cell, the issued refresh POST carries it as Bearer credential. -/
theorem C4_refresh_carries_cell_token_witness :
    (initState (some "stale")).isRefreshing = false ∧
    (⟨1, some 401, cfgA⟩ : AxiosErr).status = some 401 ∧
    (⟨1, some 401, cfgA⟩ : AxiosErr).config.retry = false ∧
    ((step (initState (some "stale")) (.respError ⟨1, some 401, cfgA⟩)).refreshRequests
      = (initState (some "stale")).refreshRequests
        ++ [requestOnFulfilled (initState (some "stale")).accessToken refreshBaseConfig] ∧
    ((initState (some "stale")).accessToken = none →
      (requestOnFulfilled (initState (some "stale")).accessToken
        refreshBaseConfig).headers.authorization = none) ∧
    (∀ t : String, (initState (some "stale")).accessToken = some t → t ≠ "" →
      (requestOnFulfilled (initState (some "stale")).accessToken
        refreshBaseConfig).headers.authorization = some ("Bearer " ++ t))) :=
  ⟨rfl, rfl, rfl,
   C4_refresh_carries_cell_token (initState (some "stale")) ⟨1, some 401, cfgA⟩
     rfl rfl rfl⟩

/-- The state after the scenario refuting claim C5 as stated: a trigger,
one queued waiter, then the refresh POST failing with status 401. -/
def c5CxState : SysState :=
  run (initState (some "t0"))
    [Event.respError ⟨1, some 401, cfgA⟩, Event.respError ⟨2, some 401, cfgB⟩,
     Event.refreshFail (some 401)]

/-- Counterexample to claim C5 as stated: when the refresh POST fails
with status 401 — its own error being swallowed by the interceptor into
the queue — the Session Invalidation Signal fires zero times instead of
exactly once, the cell is not cleared, and no waiter is rejected. -/
theorem C5_refresh401_no_signal_cx :
    c5CxState.logoutEvents = 0 ∧
    c5CxState.accessToken = some "t0" ∧
    c5CxState.deliveries = [] ∧
    c5CxState.isRefreshing = true := by
  refine ⟨rfl, rfl, rfl, rfl⟩

/-- Claim C5 as amended: for a refresh failure whose own status is not
401 (any other failure status, or a transport error with no response),
the cell is cleared, every queued waiter and the trigger are rejected
with the refresh error, and the `auth:logout` signal fires exactly once
for the batch, regardless of how many waiters were queued; on a
successful refresh the signal never fires.  (A refresh failure with
status 401 instead deadlocks, per the counterexample.) -/
theorem C5_invalidation_once (a0 : Option String) (tr : AxiosErr)
    (ws : List AxiosErr) (st : Option Nat) (tok : String)
    (htr1 : tr.status = some 401) (htr2 : tr.config.retry = false)
    (hws : ∀ e ∈ ws, e.status = some 401 ∧ e.config.retry = false)
    (hst : ¬ st = some 401) :
    (run (initState a0) (failTrace tr ws st)).logoutEvents = 1 ∧
    (run (initState a0) (failTrace tr ws st)).accessToken = none ∧
    (run (initState a0) (failTrace tr ws st)).isRefreshing = false ∧
    (run (initState a0) (failTrace tr ws st)).deliveries
      = ws.map (fun e => Delivery.rejected e.reqId
          ⟨refreshCallId, st, requestOnFulfilled a0 refreshBaseConfig⟩)
        ++ [Delivery.rejected tr.reqId
          ⟨refreshCallId, st, requestOnFulfilled a0 refreshBaseConfig⟩] ∧
    (run (initState a0) (okTrace tr ws tok)).logoutEvents = 0 := by
  rw [run_failTrace a0 tr ws st htr1 htr2 hws hst,
      run_okTrace a0 tr ws tok htr1 htr2 hws]
  exact ⟨rfl, rfl, rfl, rfl, rfl⟩

/-- Witness for C5_invalidation_once: two waiters queued behind a
trigger, refresh failing with a 400 — one logout event, cleared cell,
all three rejected; and zero logout events on the successful variant. -/
theorem C5_invalidation_once_witness :
    (e1A.status = some 401 ∧ e1A.config.retry = false ∧
      (∀ e ∈ ([e2B, ⟨3, some 401, cfgC⟩] : List AxiosErr),
        e.status = some 401 ∧ e.config.retry = false) ∧
      ¬ (some 400 : Option Nat) = some 401) ∧
    (run (initState (some "t0"))
        (failTrace e1A [e2B, ⟨3, some 401, cfgC⟩] (some 400))).logoutEvents = 1 ∧
    (run (initState (some "t0"))
        (failTrace e1A [e2B, ⟨3, some 401, cfgC⟩] (some 400))).accessToken = none ∧
    (run (initState (some "t0"))
        (failTrace e1A [e2B, ⟨3, some 401, cfgC⟩] (some 400))).isRefreshing = false ∧
    (run (initState (some "t0"))
        (failTrace e1A [e2B, ⟨3, some 401, cfgC⟩] (some 400))).deliveries
      = ([e2B, ⟨3, some 401, cfgC⟩] : List AxiosErr).map
          (fun e => Delivery.rejected e.reqId
            ⟨refreshCallId, some 400,
              requestOnFulfilled (some "t0") refreshBaseConfig⟩)
        ++ [Delivery.rejected e1A.reqId
            ⟨refreshCallId, some 400,
              requestOnFulfilled (some "t0") refreshBaseConfig⟩] ∧
    (run (initState (some "t0"))
        (okTrace e1A [e2B, ⟨3, some 401, cfgC⟩] "t1")).logoutEvents = 0 :=
  ⟨⟨rfl, rfl, by decide, by decide⟩,
   C5_invalidation_once (some "t0") e1A [e2B, ⟨3, some 401, cfgC⟩]
     (some 400) "t1" rfl rfl (by decide) (by decide)⟩

/-- Claim C6: credential propagation.  After a successful refresh
delivering a new token, the token is written to the cell, the trigger
and every waiter are re-dispatched, every re-dispatched request carries
the newly obtained token as its Bearer credential, each waiter got the
new token delivered to its continuation, and the coordinator returns to
idle with nothing pending. -/
theorem C6_credential_propagation (a0 : Option String) (tr : AxiosErr)
    (ws : List AxiosErr) (tok : String)
    (htr1 : tr.status = some 401) (htr2 : tr.config.retry = false)
    (hws : ∀ e ∈ ws, e.status = some 401 ∧ e.config.retry = false) :
    (run (initState a0) (okTrace tr ws tok)).accessToken = some tok ∧
    (run (initState a0) (okTrace tr ws tok)).isRefreshing = false ∧
    (run (initState a0) (okTrace tr ws tok)).pending = none ∧
    (run (initState a0) (okTrace tr ws tok)).replays.map Prod.fst
      = tr.reqId :: ws.map AxiosErr.reqId ∧
    (∀ r ∈ (run (initState a0) (okTrace tr ws tok)).replays,
      r.2.headers.authorization = some ("Bearer " ++ tok)) ∧
    (run (initState a0) (okTrace tr ws tok)).deliveries
      = ws.map (fun e => Delivery.resolved e.reqId tok) := by
  rw [run_okTrace a0 tr ws tok htr1 htr2 hws]
  refine ⟨rfl, rfl, rfl, by simp, ?_, rfl⟩
  intro r hr
  rcases List.mem_cons.mp hr with h | h
  · subst h; exact bearer_dispatch tok _
  · obtain ⟨e, he, rfl⟩ := List.mem_map.mp h
    exact bearer_dispatch tok _

/-- Witness for C6_credential_propagation: a trigger and one waiter,
refresh delivering token t1. -/
theorem C6_credential_propagation_witness :
    (e1A.status = some 401 ∧ e1A.config.retry = false ∧
      (∀ e ∈ ([e2B] : List AxiosErr),
        e.status = some 401 ∧ e.config.retry = false)) ∧
    (run (initState (some "t0")) (okTrace e1A [e2B] "t1")).accessToken = some "t1" ∧
    (run (initState (some "t0")) (okTrace e1A [e2B] "t1")).isRefreshing = false ∧
    (run (initState (some "t0")) (okTrace e1A [e2B] "t1")).pending = none ∧
    (run (initState (some "t0")) (okTrace e1A [e2B] "t1")).replays.map Prod.fst
      = e1A.reqId :: ([e2B] : List AxiosErr).map AxiosErr.reqId ∧
    (∀ r ∈ (run (initState (some "t0")) (okTrace e1A [e2B] "t1")).replays,
      r.2.headers.authorization = some ("Bearer " ++ "t1")) ∧
    (run (initState (some "t0")) (okTrace e1A [e2B] "t1")).deliveries
      = ([e2B] : List AxiosErr).map (fun e => Delivery.resolved e.reqId "t1") :=
  ⟨⟨rfl, rfl, by decide⟩,
   C6_credential_propagation (some "t0") e1A [e2B] "t1" rfl rfl (by decide)⟩

/-- Claim C7: within one refresh operation the queued continuations are
settled in join order — on success the resolutions list the waiters in
exactly their arrival order, and on (non-401) failure the rejections do
too, with the trigger rejected after the batch. -/
theorem C7_fifo_resolution (a0 : Option String) (tr : AxiosErr)
    (ws : List AxiosErr) (st : Option Nat) (tok : String)
    (htr1 : tr.status = some 401) (htr2 : tr.config.retry = false)
    (hws : ∀ e ∈ ws, e.status = some 401 ∧ e.config.retry = false)
    (hst : ¬ st = some 401) :
    (run (initState a0) (okTrace tr ws tok)).deliveries
      = ws.map (fun e => Delivery.resolved e.reqId tok) ∧
    (run (initState a0) (failTrace tr ws st)).deliveries
      = ws.map (fun e => Delivery.rejected e.reqId
          ⟨refreshCallId, st, requestOnFulfilled a0 refreshBaseConfig⟩)
        ++ [Delivery.rejected tr.reqId
          ⟨refreshCallId, st, requestOnFulfilled a0 refreshBaseConfig⟩] := by
  rw [run_okTrace a0 tr ws tok htr1 htr2 hws,
      run_failTrace a0 tr ws st htr1 htr2 hws hst]
  exact ⟨rfl, rfl⟩

/-- Witness for C7_fifo_resolution: waiters 2 then 3 joined in that
order; their settlements come out in the same order in both the success
and the failure scenario. -/
theorem C7_fifo_resolution_witness :
    (e1A.status = some 401 ∧ e1A.config.retry = false ∧
      (∀ e ∈ ([e2B, ⟨3, some 401, cfgC⟩] : List AxiosErr),
        e.status = some 401 ∧ e.config.retry = false) ∧
      ¬ (none : Option Nat) = some 401) ∧
    (run (initState (some "t0"))
        (okTrace e1A [e2B, ⟨3, some 401, cfgC⟩] "t1")).deliveries
      = ([e2B, ⟨3, some 401, cfgC⟩] : List AxiosErr).map
          (fun e => Delivery.resolved e.reqId "t1") ∧
    (run (initState (some "t0"))
        (failTrace e1A [e2B, ⟨3, some 401, cfgC⟩] none)).deliveries
      = ([e2B, ⟨3, some 401, cfgC⟩] : List AxiosErr).map
          (fun e => Delivery.rejected e.reqId
            ⟨refreshCallId, none,
              requestOnFulfilled (some "t0") refreshBaseConfig⟩)
        ++ [Delivery.rejected e1A.reqId
            ⟨refreshCallId, none,
              requestOnFulfilled (some "t0") refreshBaseConfig⟩] :=
  ⟨⟨rfl, rfl, by decide, by decide⟩,
   C7_fifo_resolution (some "t0") e1A [e2B, ⟨3, some 401, cfgC⟩] none "t1"
     rfl rfl (by decide) (by decide)⟩
